import Mathlib

/-!
Verification of the GigaClaw agent-execution pipeline.

This file gives a shallow embedding, in Lean 4, of the parts of the
GigaClaw host process that the specification talks about:

* the Container Process Runner (`container-runner.ts`): accumulation of
  the child's stdout/stderr under a byte cap, the sentinel-delimited
  output protocol with its last-line fallback, and the resolution of all
  failure paths to a structured `ContainerOutput`;
* the IPC snapshot writers (`writeTasksSnapshot`, `writeGroupsSnapshot`);
* the environment-file filter inside `buildVolumeMounts`;
* the Message Router (`message-router.ts`): trigger policy, prompt
  assembly, session-handle persistence and the per-chat watermark.

Strings coming over the wire are modelled as `List Char`; JavaScript's
`String.prototype.trim`, `split('\n')`, `indexOf` and `slice` are
modelled by explicit executable functions below.  State held in the
host's mutable maps is modelled by functions `String → Option String`
updated pointwise.
-/

namespace Gigaclaw

/-- Result status reported by a container turn (`ContainerOutput.status`). -/
inductive Status where
  | success
  | error
deriving DecidableEq

/-- The structured result of one container turn, as declared in
`container-runner.ts` (`interface ContainerOutput`). -/
structure ContainerOutput where
  status : Status
  result : Option String
  newSessionId : Option String := none
  error : Option String := none
deriving DecidableEq

/-- Sentinel start marker (`OUTPUT_START_MARKER` in `container-runner.ts`). -/
def startMarker : List Char := "---GIGACLAW_OUTPUT_START---".data

/-- Sentinel end marker (`OUTPUT_END_MARKER` in `container-runner.ts`). -/
def endMarker : List Char := "---GIGACLAW_OUTPUT_END---".data

/-- Whitespace as trimmed by JavaScript `String.prototype.trim` (the
characters that occur in this development). -/
def isSpaceChar (c : Char) : Bool :=
  c = ' ' || c = '\t' || c = '\n' || c = '\r'

/-- Model of JavaScript `s.trim()`: drop whitespace from both ends. -/
def jsTrim (s : List Char) : List Char :=
  ((s.dropWhile isSpaceChar).reverse.dropWhile isSpaceChar).reverse

/-- Model of JavaScript `s.indexOf(pat)`: index of the first occurrence
of `pat` in `s`, or `none` when `pat` does not occur (JS returns `-1`). -/
def firstOcc (pat : List Char) : List Char → Option Nat
  | [] => if pat.isPrefixOf ([] : List Char) then some 0 else none
  | c :: t =>
    if pat.isPrefixOf (c :: t) then some 0
    else (firstOcc pat t).map (· + 1)

/-- The fallback extraction path of `runContainerAgent`:
`stdout.trim().split('\n')` followed by `lines[lines.length - 1] ?? ''`. -/
def lastLineFallback (stdout : List Char) : List Char :=
  let lines := (jsTrim stdout).splitOn '\n'
  lines.getD (lines.length - 1) []

/-- Payload extraction of `runContainerAgent` on a clean zero exit
(`container-runner.ts`, the `try` block of the `close` handler): if both
sentinel markers are found by `indexOf` and the end marker's index is
strictly greater than the start marker's, the payload is the slice
strictly between them, trimmed; otherwise the last line of the trimmed
stdout. -/
def extractPayload (stdout : List Char) : List Char :=
  match firstOcc startMarker stdout, firstOcc endMarker stdout with
  | some startIdx, some endIdx =>
    if startIdx < endIdx then
      jsTrim ((stdout.drop (startIdx + startMarker.length)).take
        (endIdx - (startIdx + startMarker.length)))
    else lastLineFallback stdout
  | some _, none => lastLineFallback stdout
  | none, _ => lastLineFallback stdout

/-- The output resolved when `JSON.parse` on the extracted payload throws
(the `catch` branch of the `close` handler). -/
def parseFailureOutput : ContainerOutput :=
  { status := .error, result := none, error := some "Failed to parse container output" }

/-- The output resolved when the child exits with a non-zero code. -/
def exitFailureOutput (code : Int) : ContainerOutput :=
  { status := .error, result := none
    error := some ("Container exited with code " ++ toString code) }

/-- The `close` handler of `runContainerAgent`, parameterised by the
`JSON.parse`-and-cast step (`parse p = none` models a parse exception):
non-zero exit resolves to an error output; otherwise the payload is
extracted from stdout and parsed, a failure resolving to
`parseFailureOutput` instead of throwing. -/
def handleClose (parse : List Char → Option ContainerOutput)
    (code : Int) (stdout : List Char) : ContainerOutput :=
  if code ≠ 0 then exitFailureOutput code
  else
    match parse (extractPayload stdout) with
    | some output => output
    | none => parseFailureOutput

/-- Spec phrasing: the lines of `stdout` (split on the newline character)
that are non-empty, i.e. contain at least one character. -/
def nonEmptyLines (stdout : List Char) : List (List Char) :=
  (stdout.splitOn '\n').filter (fun l => !l.isEmpty)

/-- Spec phrasing of C1's fallback clause: "the last non-empty line of
stdout" (`none` when every line is empty). -/
def lastNonEmptyLine (stdout : List Char) : Option (List Char) :=
  (nonEmptyLines stdout).getLast?

/-- Spec phrasing (amended): the payload is the slice of `stdout` beginning
after the first start-marker occurrence and ending at the first end-marker
occurrence, trimmed, when both markers are present in that order; otherwise
the last line of the whitespace-trimmed stdout. -/
def specPayload (stdout : List Char) : List Char :=
  match firstOcc startMarker stdout, firstOcc endMarker stdout with
  | some startIdx, some endIdx =>
    if startIdx < endIdx then
      jsTrim ((stdout.take endIdx).drop (startIdx + startMarker.length))
    else ((jsTrim stdout).splitOn '\n').getLastD []
  | some _, none => ((jsTrim stdout).splitOn '\n').getLastD []
  | none, _ => ((jsTrim stdout).splitOn '\n').getLastD []

lemma getD_length_sub_one_eq_getLastD (l : List α) (d : α) :
    (l[l.length - 1]?).getD d = l.getLast?.getD d := by
  induction l with
  | nil => rfl
  | cons a t ih =>
    cases t with
    | nil => rfl
    | cons b t' =>
      have h1 : (a :: b :: t')[(a :: b :: t').length - 1]?
          = (b :: t')[(b :: t').length - 1]? := by
        simp
      rw [h1, List.getLast?_cons_cons, ih]

lemma take_drop_swap (l : List α) (a b : Nat) :
    (l.drop a).take (b - a) = (l.take b).drop a := by
  induction l generalizing a b with
  | nil => simp
  | cons c t ih =>
    cases a with
    | zero => simp
    | succ a' =>
      cases b with
      | zero => simp
      | succ b' =>
        simpa [Nat.succ_sub_succ] using ih a' b'

/-- The output resolved by the `error` (spawn failure) handler of the
container child process. -/
def spawnFailureOutput : ContainerOutput :=
  { status := .error, result := none, error := some "Container spawn error" }

/-- The output resolved by the timeout timer of `runContainerAgent`. -/
def timeoutOutput : ContainerOutput :=
  { status := .error, result := none, error := some "Container timed out" }

/-- The ways one `runContainerAgent` invocation can settle: a spawn-level
error event, expiry of the timeout timer, or the child's `close` event
with an exit code and the accumulated stdout. -/
inductive Outcome where
  | spawnError
  | timedOut
  | closed (code : Int) (stdout : List Char)

/-- The `ContainerOutput` that `runContainerAgent`'s promise resolves to
for each settling event (`container-runner.ts`): every handler calls
`resolve`, never `reject`. -/
def runContainerResult (parse : List Char → Option ContainerOutput) :
    Outcome → ContainerOutput
  | .spawnError => spawnFailureOutput
  | .timedOut => timeoutOutput
  | .closed code stdout => handleClose parse code stdout

/-- The failure paths named by C4: spawn error, timeout, non-zero exit,
or zero exit whose extracted payload does not parse. -/
def failurePath (parse : List Char → Option ContainerOutput) : Outcome → Prop
  | .spawnError => True
  | .timedOut => True
  | .closed code stdout => code ≠ 0 ∨ parse (extractPayload stdout) = none

/-- C4 — every failure path of `runContainerAgent` resolves to a
structured `ContainerOutput` with status `error`; no path escapes as an
exception (each handler is total and returns a `ContainerOutput`). -/
theorem runner_failure_paths_resolve_error
    (parse : List Char → Option ContainerOutput) (o : Outcome)
    (h : failurePath parse o) : (runContainerResult parse o).status = .error := by
  cases o with
  | spawnError => rfl
  | timedOut => rfl
  | closed code stdout =>
    show (handleClose parse code stdout).status = .error
    unfold handleClose
    by_cases hz : code ≠ 0
    · simp [hz, exitFailureOutput]
    · rcases h with hc | hp
      · exact absurd hc hz
      · simp [hz, hp, parseFailureOutput]

/-- C4 witness — the timeout path at a concrete parse function resolves
to a status-`error` output. -/
theorem runner_failure_paths_resolve_error_witness :
    failurePath (fun _ => none) .timedOut ∧
    (runContainerResult (fun _ => none) .timedOut).status = .error :=
  ⟨trivial, runner_failure_paths_resolve_error (fun _ => none) .timedOut trivial⟩

/-- One `data` event of a stream handler in `runContainerAgent`: once the
truncation flag is set the chunk is dropped; otherwise the chunk is
appended, cut down to the remaining room under the cap, setting the flag
when it did not fit. -/
def accStep (cap : Nat) (st : List Char × Bool) (chunk : List Char) :
    List Char × Bool :=
  if st.2 then st
  else
    let remaining := cap - st.1.length
    if chunk.length > remaining then (st.1 ++ chunk.take remaining, true)
    else (st.1 ++ chunk, st.2)

/-- The accumulated buffer and truncation flag after a sequence of
`data` events, starting from the empty buffer. -/
def accumulate (cap : Nat) (chunks : List (List Char)) : List Char × Bool :=
  chunks.foldl (accStep cap) ([], false)

lemma accStep_length_le (cap : Nat) (st : List Char × Bool) (chunk : List Char)
    (h : st.1.length ≤ cap) : (accStep cap st chunk).1.length ≤ cap := by
  unfold accStep
  by_cases ht : st.2
  · simpa [ht]
  · by_cases hover : chunk.length > cap - st.1.length
    · simp only [ht, if_false, hover, if_true, Bool.false_eq_true, if_neg]
      simp only [List.length_append, List.length_take]
      omega
    · simp only [ht, if_false, hover, if_neg, Bool.false_eq_true]
      simp only [List.length_append]
      omega

lemma accumulate_aux_length_le (cap : Nat) (chunks : List (List Char))
    (st : List Char × Bool) (h : st.1.length ≤ cap) :
    (chunks.foldl (accStep cap) st).1.length ≤ cap := by
  induction chunks generalizing st with
  | nil => simpa
  | cons c cs ih => exact ih _ (accStep_length_le cap st c h)

/-- C6 — the accumulated stream buffer never exceeds the configured cap,
and each `data` event keeps exactly the prefix of the chunk that fits in
the remaining room (nothing once the truncation flag is set): bytes
beyond the cap are dropped, never buffered, while every chunk is still
consumed. -/
theorem stream_cap_preserved (cap : Nat) (chunks : List (List Char)) :
    (accumulate cap chunks).1.length ≤ cap ∧
    ∀ buf tr chunk, (accStep cap (buf, tr) chunk).1 =
      if tr then buf else buf ++ chunk.take (cap - buf.length) := by
  constructor
  · exact accumulate_aux_length_le cap chunks ([], false) (by simp)
  · intro buf tr chunk
    unfold accStep
    cases tr with
    | true => simp
    | false =>
      by_cases hover : chunk.length > cap - buf.length
      · simp [hover]
      · simp only [Bool.false_eq_true, if_false, hover, if_neg]
        rw [List.take_of_length_le (le_of_not_lt hover)]

/-- C1 — The Runner's zero-exit result extraction, stated against the
spec-phrased `specPayload` (amended fallback: the last line of the
whitespace-trimmed stdout, equivalently the last non-blank line with the
trailing whitespace that ends the stream removed): when both markers are
present with the first end-marker occurrence after the first start-marker
occurrence the payload is the trimmed substring strictly between them,
otherwise the fallback line; the payload is then parsed, and a parse
failure resolves to an error `ContainerOutput` rather than an exception. -/
theorem runner_extraction_amended (parse : List Char → Option ContainerOutput)
    (stdout : List Char) :
    extractPayload stdout = specPayload stdout ∧
    handleClose parse 0 stdout = (parse (specPayload stdout)).getD parseFailureOutput := by
  have hpayload : extractPayload stdout = specPayload stdout := by
    unfold extractPayload specPayload lastLineFallback
    cases hs : firstOcc startMarker stdout with
    | none => simp [getD_length_sub_one_eq_getLastD]
    | some startIdx =>
      cases he : firstOcc endMarker stdout with
      | none => simp [getD_length_sub_one_eq_getLastD]
      | some endIdx =>
        by_cases hlt : startIdx < endIdx
        · simp only [hlt, if_pos, take_drop_swap]
        · simp [hlt, getD_length_sub_one_eq_getLastD]
  refine ⟨hpayload, ?_⟩
  unfold handleClose
  rw [if_neg (by simp), hpayload]
  cases parse (specPayload stdout) <;> simp

/-- C1 counterexample — on stdout `"a\n \n"` (no markers; its final
non-empty line is the lone space) the Runner's payload is `"a"`, the last
line of the trimmed stdout, not the literal last non-empty line `" "`. -/
theorem runner_extraction_counterexample :
    firstOcc startMarker ['a', '\n', ' ', '\n'] = none ∧
    extractPayload ['a', '\n', ' ', '\n'] = ['a'] ∧
    lastNonEmptyLine ['a', '\n', ' ', '\n'] = some [' '] ∧
    (['a'] : List Char) ≠ [' '] := by
  refine ⟨by decide, by decide, by decide, by decide⟩

/-- A scheduled-task projection as written by the Router into the tasks
snapshot (`message-router.ts` maps each task to this shape before calling
`writeTasksSnapshot`; only `group_folder` is inspected by the filter). -/
structure Task where
  id : Nat
  group_folder : String
  prompt : String
deriving DecidableEq

/-- The task list written by `writeTasksSnapshot` (`container-runner.ts`):
the full list for the main group, otherwise only the tasks whose
`group_folder` equals the group's folder. -/
def writeTasksFiltered (groupFolder : String) (isMain : Bool)
    (tasks : List Task) : List Task :=
  if isMain then tasks
  else tasks.filter (fun t => t.group_folder == groupFolder)

/-- C7 — `writeTasksSnapshot` writes the input list unmodified and in
order for the main group; for any other group it writes exactly the
subset (order-preserving sublist) of tasks whose `group_folder` equals
that group's folder. -/
theorem tasks_snapshot_visibility (folder : String) (tasks : List Task) :
    writeTasksFiltered folder true tasks = tasks ∧
    (writeTasksFiltered folder false tasks).Sublist tasks ∧
    ∀ t, t ∈ writeTasksFiltered folder false tasks ↔
      t ∈ tasks ∧ t.group_folder = folder := by
  refine ⟨rfl, ?_, ?_⟩
  · exact List.filter_sublist tasks
  · intro t
    simp [writeTasksFiltered, List.mem_filter]

/-- An available-chat entry as assembled by the Router
(`getAvailableGroups` in `message-router.ts`). -/
structure AvailableGroup where
  jid : String
  name : String
  lastActivity : String
  isRegistered : Bool
deriving DecidableEq

/-- The JSON document written by `writeGroupsSnapshot`. -/
structure GroupsSnapshot where
  groups : List AvailableGroup
  lastSync : String
deriving DecidableEq

/-- The snapshot written by `writeGroupsSnapshot`
(`container-runner.ts`): the full chat list for the main group, an empty
`groups` array for every other group. -/
def writeGroupsFiltered (groupFolder : String) (isMain : Bool)
    (groups : List AvailableGroup) (now : String) : GroupsSnapshot :=
  { groups := if isMain then groups else [], lastSync := now }

/-- C8 — `writeGroupsSnapshot` for a non-main group always writes an
empty `groups` array regardless of the input, the main group receives
the full list, and only a main-group snapshot can carry a non-empty
`groups` array. -/
theorem groups_snapshot_visibility (folder now : String)
    (gs : List AvailableGroup) :
    (writeGroupsFiltered folder false gs now).groups = [] ∧
    (writeGroupsFiltered folder true gs now).groups = gs ∧
    ∀ m : Bool, (writeGroupsFiltered folder m gs now).groups ≠ [] → m = true := by
  refine ⟨rfl, rfl, ?_⟩
  intro m hm
  cases m with
  | true => rfl
  | false => exact absurd rfl hm

/-- C8 witness — a concrete non-main snapshot is empty while the same
input yields a non-empty array for the main group. -/
theorem groups_snapshot_visibility_witness :
    (writeGroupsFiltered "family" true [⟨"jid1", "Family", "t0", true⟩] "now").groups ≠ [] ∧
    true = true :=
  ⟨by decide,
    (groups_snapshot_visibility "family" "now" [⟨"jid1", "Family", "t0", true⟩]).2.2
      true (by decide)⟩

/-! ## Message Router (`message-router.ts`) -/

/-- Constant `MAIN_GROUP_FOLDER` from `config.ts`. -/
def MAIN_GROUP_FOLDER : String := "main"

/-- Constant `ASSISTANT_NAME` from `config.ts` (its default value). -/
def assistantName : String := "Neo"

/-- A registered group as read by the Router (only `name` and `folder`
are consulted by the modelled paths). -/
structure RegisteredGroup where
  name : String
  folder : String
deriving DecidableEq

/-- An inbound message (`NewMessage` as built by `telegram.ts`). -/
structure Msg where
  id : String
  chat_jid : String
  sender : String
  sender_name : String
  content : String
  timestamp : String
deriving DecidableEq

/-- The Router's persisted state: the per-group session handles
(`sessions`) and the per-chat watermark (`lastAgentTimestamp`),
both mutable maps in `state.ts`. -/
structure RouterState where
  sessions : String → Option String
  lastAgentTimestamp : String → Option String

/-- Observable effects of one `processMessage` call: whether the IPC
snapshots were rewritten, whether the container runner was invoked, and
the text sent back to the chat (if any). -/
structure TurnEffects where
  wroteSnapshots : Bool
  ranContainer : Bool
  sentText : Option String
deriving DecidableEq

/-- String form of `jsTrim` (JavaScript `s.trim()`). -/
def jsTrimStr (s : String) : String := ⟨jsTrim s.data⟩

/-- A regex word character, for the `\b` boundary in `TRIGGER_PATTERN`. -/
def isWordChar (c : Char) : Bool := c.isAlphanum || c = '_'

/-- Model of `TRIGGER_PATTERN.test content`: the pattern is
`^@<ASSISTANT_NAME>\b` with the case-insensitive flag (`config.ts`). -/
def triggerMatches (content : String) : Bool :=
  match content.data with
  | '@' :: rest =>
    (assistantName.data.map Char.toLower).isPrefixOf (rest.map Char.toLower) &&
    (match rest.drop assistantName.length with
     | [] => true
     | c :: _ => !(isWordChar c))
  | _ => false

/-- The `escapeXml` helper from `processMessage`, one character at a
time (the sequential regex replaces in the source never rewrite the
entities introduced by an earlier replace, so a per-character map is
equivalent). -/
def escapeXmlChar (c : Char) : String :=
  if c = '&' then "&amp;"
  else if c = '<' then "&lt;"
  else if c = '>' then "&gt;"
  else if c = '"' then "&quot;"
  else String.singleton c

/-- The `escapeXml` helper applied to a whole string. -/
def escapeXml (s : String) : String := String.join (s.data.map escapeXmlChar)

/-- One `<message …>…</message>` line of the prompt. -/
def renderLine (m : Msg) : String :=
  "<message sender=\"" ++ escapeXml m.sender_name ++ "\" time=\"" ++ m.timestamp
    ++ "\">" ++ escapeXml m.content ++ "</message>"

/-- The prompt assembled by `processMessage` from the unconsumed-message
window: the tagged lines joined by newlines inside a `<messages>`
wrapper.  Note the wrapper is present even for an empty window. -/
def buildPrompt (window : List Msg) : String :=
  "<messages>\n" ++ String.intercalate "\n" (window.map renderLine) ++ "\n</messages>"

/-- JavaScript truthiness of a `string | null` value: `null` and the
empty string are falsy. -/
def jsTruthy : Option String → Bool
  | none => false
  | some s => s != ""

/-- The turn tail shared by `runAgent` and `processMessage`
(`message-router.ts`): a truthy reported `newSessionId` (the guard is
`if (output.newSessionId)`, so a null or empty-string handle is not
stored) is persisted before the status check, an error status yields a
`null` response, and a truthy response advances the chat's watermark to
the triggering message's timestamp.  Returns the new state and
`runAgent`'s return value. -/
def runTurnStep (folder chatJid ts : String) (out : ContainerOutput)
    (st : RouterState) : RouterState × Option String :=
  let sessions' : String → Option String :=
    if jsTruthy out.newSessionId then
      fun k => if k = folder then out.newSessionId else st.sessions k
    else st.sessions
  let response : Option String := if out.status = .error then none else out.result
  let st' : RouterState := { st with sessions := sessions' }
  if jsTruthy response then
    ({ st' with lastAgentTimestamp :=
        fun k => if k = chatJid then some ts else st.lastAgentTimestamp k },
      response)
  else (st', response)

/-- The `processMessage` entry point as a state transformer.  `registered` models the
`registeredGroups` map; `window` models the list returned by the message
store for `getMessagesSince(chat, watermark, ASSISTANT_NAME)`; `out`
models the `ContainerOutput` that `runContainerAgent` resolves with when
it is invoked. -/
def processMessageM (registered : String → Option RegisteredGroup)
    (window : List Msg) (out : ContainerOutput) (msg : Msg)
    (st : RouterState) : RouterState × TurnEffects :=
  match registered msg.chat_jid with
  | none => (st, ⟨false, false, none⟩)
  | some g =>
    let content := jsTrimStr msg.content
    let isMainGroup := g.folder == MAIN_GROUP_FOLDER
    if !isMainGroup && !triggerMatches content then (st, ⟨false, false, none⟩)
    else
      let prompt := buildPrompt window
      if prompt == "" then (st, ⟨false, false, none⟩)
      else
        let stepped := runTurnStep g.folder msg.chat_jid msg.timestamp out st
        (stepped.1,
          ⟨true, true,
            if jsTruthy stepped.2 then
              some (assistantName ++ ": " ++ stepped.2.getD "")
            else none⟩)

/-- A concrete inbound message used by witnesses and counterexamples. -/
def sampleMsg : Msg :=
  { id := "telegram_1", chat_jid := "telegram@chat:1", sender := "7"
    sender_name := "ada", content := "@Neo hello", timestamp := "2026-01-02T03:04:05Z" }

/-- A concrete empty router state. -/
def sampleState : RouterState :=
  { sessions := fun _ => none, lastAgentTimestamp := fun _ => none }

/-- The registered main group used by concrete evaluations. -/
def mainGroup : RegisteredGroup := { name := "Main", folder := "main" }

/-- C10 — an inbound message whose chat has no registered group makes
`processMessage` return at once: no snapshot write, no container
invocation, no outbound message, and the persisted state is returned
unchanged. -/
theorem unregistered_chat_no_effect (registered : String → Option RegisteredGroup)
    (window : List Msg) (out : ContainerOutput) (msg : Msg) (st : RouterState)
    (h : registered msg.chat_jid = none) :
    processMessageM registered window out msg st = (st, ⟨false, false, none⟩) := by
  unfold processMessageM
  rw [h]

/-- C10 witness — concrete evaluation with an empty registry. -/
theorem unregistered_chat_no_effect_witness :
    (fun _ : String => (none : Option RegisteredGroup)) sampleMsg.chat_jid = none ∧
    processMessageM (fun _ => none) [] { status := .success, result := some "ok" }
      sampleMsg sampleState = (sampleState, ⟨false, false, none⟩) :=
  ⟨rfl, unregistered_chat_no_effect _ _ _ _ _ rfl⟩

/-- C9 — code bug: the empty-window guard in `processMessage` tests the
already-wrapped prompt (`if (!prompt) return`), but the wrapper makes the
prompt non-empty even for an empty window, so the guard never fires: with
a registered main-group chat and an empty unconsumed window the container
runner is still invoked, against the spec's "an empty window yields no
turn". -/
theorem empty_window_still_runs_turn :
    buildPrompt [] ≠ "" ∧
    (processMessageM
        (fun j => if j = "telegram@chat:1" then some mainGroup else none)
        [] { status := .success, result := some "ok" } sampleMsg
        sampleState).2.ranContainer = true := by
  constructor
  · decide
  · rfl

/-- An error output that reports a new session handle, as a container
agent may produce (the parsed `ContainerOutput` shape allows
`newSessionId` alongside `status: "error"`). -/
def errorOutputWithSession : ContainerOutput :=
  { status := .error, result := none, newSessionId := some "sess-2"
    error := some "agent failed" }

/-- C2 counterexample — an error-status output carrying a `newSessionId`
does change the stored session handle: `runAgent` persists the new handle
before it checks the status, so the state after this error turn differs
from the state before it. -/
theorem error_turn_counterexample :
    errorOutputWithSession.status = .error ∧
    (runTurnStep "main" "telegram@chat:1" "t1" errorOutputWithSession
      sampleState).1.sessions "main" = some "sess-2" ∧
    sampleState.sessions "main" = none := by
  refine ⟨rfl, ?_, rfl⟩
  rfl

lemma jsTruthy_none : jsTruthy none = false := rfl

lemma jsTruthy_some (s : String) : jsTruthy (some s) = (s != "") := rfl

/-- C2 (amended) — a turn whose `ContainerOutput` has status `error`
yields a `null` response and leaves the chat's watermark unchanged, and
leaves the stored session handle unchanged unless the output carries a
truthy (non-null, non-empty) `newSessionId`, in which case that handle
is stored (even on error). -/
theorem error_turn_state_amended (folder chatJid ts : String)
    (out : ContainerOutput) (st : RouterState) (herr : out.status = .error) :
    (runTurnStep folder chatJid ts out st).2 = none ∧
    (runTurnStep folder chatJid ts out st).1.lastAgentTimestamp
      = st.lastAgentTimestamp ∧
    (jsTruthy out.newSessionId = false →
      (runTurnStep folder chatJid ts out st).1.sessions = st.sessions) ∧
    (∀ s, out.newSessionId = some s → s ≠ "" →
      (runTurnStep folder chatJid ts out st).1.sessions
        = fun k => if k = folder then some s else st.sessions k) := by
  refine ⟨?_, ?_, ?_, ?_⟩
  · simp [runTurnStep, herr, jsTruthy_none]
  · simp [runTurnStep, herr, jsTruthy_none]
  · intro h
    simp [runTurnStep, herr, jsTruthy_none, h]
  · intro s h hs
    simp [runTurnStep, herr, jsTruthy_none, jsTruthy_some, h, hs]

/-- C2 witness — concrete error turn: the response is `null` and the
watermark map is unchanged. -/
theorem error_turn_state_amended_witness :
    errorOutputWithSession.status = .error ∧
    (runTurnStep "main" "telegram@chat:1" "t1" errorOutputWithSession
        sampleState).2 = none ∧
    (runTurnStep "main" "telegram@chat:1" "t1" errorOutputWithSession
        sampleState).1.lastAgentTimestamp = sampleState.lastAgentTimestamp :=
  ⟨rfl,
    (error_turn_state_amended "main" "telegram@chat:1" "t1"
      errorOutputWithSession sampleState rfl).1,
    (error_turn_state_amended "main" "telegram@chat:1" "t1"
      errorOutputWithSession sampleState rfl).2.1⟩

/-- Lexicographic code-point comparison of character lists — the order
JavaScript's `<=` induces on ISO-8601 timestamp strings (chronological
order for ASCII timestamps). -/
def lexLeL : List Char → List Char → Bool
  | [], _ => true
  | _ :: _, [] => false
  | a :: as, b :: bs =>
    if a.val < b.val then true
    else if b.val < a.val then false
    else lexLeL as bs

/-- Timestamp order on strings. -/
def tsLe (a b : String) : Prop := lexLeL a.data b.data = true

instance (a b : String) : Decidable (tsLe a b) :=
  inferInstanceAs (Decidable (lexLeL a.data b.data = true))

lemma lexLeL_refl (l : List Char) : lexLeL l l = true := by
  induction l with
  | nil => rfl
  | cons a as ih => simp [lexLeL, ih]

/-- The watermark order: `none` (no watermark yet) precedes everything;
a stored timestamp may only be replaced by an equal or later one. -/
def wmLe : Option String → Option String → Prop
  | none, _ => True
  | some _, none => False
  | some a, some b => tsLe a b

instance (a b : Option String) : Decidable (wmLe a b) := by
  cases a with
  | none => exact isTrue trivial
  | some x =>
    cases b with
    | none => exact isFalse (fun h => h)
    | some y => exact inferInstanceAs (Decidable (tsLe x y))

lemma wmLe_refl (w : Option String) : wmLe w w := by
  cases w with
  | none => trivial
  | some x => exact lexLeL_refl x.data

/-- The watermark value stored for `chatJid` after one turn: advanced to
the triggering message's timestamp exactly when the turn's response is
truthy (non-null and non-empty), otherwise unchanged. -/
lemma runTurnStep_watermark (folder chatJid ts : String)
    (out : ContainerOutput) (st : RouterState) :
    (runTurnStep folder chatJid ts out st).1.lastAgentTimestamp chatJid =
      if jsTruthy (if out.status = .error then none else out.result) then some ts
      else st.lastAgentTimestamp chatJid := by
  unfold runTurnStep
  by_cases h : jsTruthy (if out.status = .error then none else out.result) = true
  · simp [h]
  · simp [h]

/-- The sequence of watermark values stored for `chatJid` along a
sequence of turns (each turn given by its triggering message's timestamp
and the container output it resolved with). -/
def wmTrace (folder chatJid : String) (st : RouterState)
    (turns : List (String × ContainerOutput)) : List (Option String) :=
  (turns.scanl (fun s t => (runTurnStep folder chatJid t.1 t.2 s).1) st).map
    (fun s => s.lastAgentTimestamp chatJid)

lemma wmTrace_head (folder chatJid : String) (st : RouterState)
    (turns : List (String × ContainerOutput)) :
    (wmTrace folder chatJid st turns).head?
      = some (st.lastAgentTimestamp chatJid) := by
  cases turns <;> simp [wmTrace, List.scanl]

lemma wmTrace_chain (folder chatJid : String) :
    ∀ (turns : List (String × ContainerOutput)) (st0 : RouterState),
      turns.Pairwise (fun a b => tsLe a.1 b.1) →
      (∀ x, st0.lastAgentTimestamp chatJid = some x → ∀ u ∈ turns, tsLe x u.1) →
      (wmTrace folder chatJid st0 turns).Chain' wmLe := by
  intro turns
  induction turns with
  | nil =>
    intro st0 _ _
    simp [wmTrace, List.scanl]
  | cons t ts ih =>
    intro st0 hsorted hinit
    have hstep : wmTrace folder chatJid st0 (t :: ts)
        = st0.lastAgentTimestamp chatJid
          :: wmTrace folder chatJid ((runTurnStep folder chatJid t.1 t.2 st0).1) ts := by
      simp [wmTrace, List.scanl_cons]
    rw [hstep, List.chain'_cons']
    constructor
    · intro b hb
      rw [wmTrace_head, Option.mem_def, Option.some.injEq] at hb
      subst hb
      rw [runTurnStep_watermark]
      by_cases htr :
          jsTruthy (if t.2.status = .error then none else t.2.result) = true
      · simp only [htr, if_pos]
        cases hw : st0.lastAgentTimestamp chatJid with
        | none => trivial
        | some x => exact hinit x hw t (List.mem_cons_self t ts)
      · simp only [htr, Bool.false_eq_true, if_neg, reduceIte]
        exact wmLe_refl _
    · refine ih ((runTurnStep folder chatJid t.1 t.2 st0).1)
        (List.pairwise_cons.mp hsorted).2 ?_
      intro x hx u hu
      rw [runTurnStep_watermark] at hx
      by_cases htr :
          jsTruthy (if t.2.status = .error then none else t.2.result) = true
      · rw [if_pos (by simpa using htr)] at hx
        cases hx
        exact (List.pairwise_cons.mp hsorted).1 u hu
      · rw [if_neg (by simpa using htr)] at hx
        exact hinit x hx u (List.mem_cons_of_mem t hu)

/-- C3 (amended) — on any sequence of turns for one chat whose triggering
messages carry non-decreasing timestamps (and whose initial watermark, if
set, precedes them), the stored watermark is monotonically non-decreasing;
each turn advances it to the triggering message's timestamp exactly when
the turn's response is truthy (non-null and non-empty), and leaves it
unchanged otherwise — in particular a null-returning turn never changes
it. -/
theorem watermark_monotone_amended (folder chatJid : String)
    (st0 : RouterState) (turns : List (String × ContainerOutput))
    (hsorted : turns.Pairwise (fun a b => tsLe a.1 b.1))
    (hinit : ∀ x, st0.lastAgentTimestamp chatJid = some x →
      ∀ u ∈ turns, tsLe x u.1) :
    (wmTrace folder chatJid st0 turns).Chain' wmLe ∧
    ∀ ts out st, (runTurnStep folder chatJid ts out st).1.lastAgentTimestamp chatJid =
      if jsTruthy (if out.status = .error then none else out.result) then some ts
      else st.lastAgentTimestamp chatJid :=
  ⟨wmTrace_chain folder chatJid turns st0 hsorted hinit,
    fun ts out st => runTurnStep_watermark folder chatJid ts out st⟩

/-- A successful output with a non-empty textual result. -/
def okOutput : ContainerOutput := { status := .success, result := some "reply" }

/-- A successful output whose textual result is the empty string — a
non-null result that JavaScript treats as falsy. -/
def emptyResultOutput : ContainerOutput := { status := .success, result := some "" }

/-- A state whose watermark for chat `"telegram@chat:1"` is `"t1"`. -/
def wmState1 : RouterState :=
  { sessions := fun _ => none
    lastAgentTimestamp := fun k => if k = "telegram@chat:1" then some "t1" else none }

/-- C3 counterexample — the watermark is assigned, not maximised: two
successful turns whose triggering timestamps arrive out of order leave a
strictly decreasing watermark trace, so the stored watermark is not
monotonically non-decreasing; moreover a turn returning the non-null
result `""` leaves the watermark unchanged instead of advancing it to the
triggering message's timestamp. -/
theorem watermark_monotone_counterexample :
    ¬ (wmTrace "main" "telegram@chat:1" sampleState
        [("t2", okOutput), ("t1", okOutput)]).Chain' wmLe ∧
    emptyResultOutput.result = some "" ∧
    (runTurnStep "main" "telegram@chat:1" "t9" emptyResultOutput
      wmState1).1.lastAgentTimestamp "telegram@chat:1" = some "t1" ∧
    some "t1" ≠ some "t9" := by
  refine ⟨?_, rfl, rfl, by decide⟩
  have htrace : wmTrace "main" "telegram@chat:1" sampleState
      [("t2", okOutput), ("t1", okOutput)]
      = [none, some "t2", some "t1"] := rfl
  rw [htrace]
  intro h
  have h2 : wmLe (some "t2") (some "t1") :=
    (List.chain'_cons.mp ((List.chain'_cons.mp h).2)).1
  exact absurd h2 (by decide)

/-- C3 witness — a concrete in-order sequence (success, error, success)
yields a monotone watermark trace. -/
theorem watermark_monotone_witness :
    ([("t2", okOutput), ("t3", errorOutputWithSession),
        ("t4", okOutput)].Pairwise (fun a b => tsLe a.1 b.1)) ∧
    (wmTrace "main" "telegram@chat:1" sampleState
      [("t2", okOutput), ("t3", errorOutputWithSession),
        ("t4", okOutput)]).Chain' wmLe :=
  ⟨by decide,
    (watermark_monotone_amended "main" "telegram@chat:1" sampleState
      [("t2", okOutput), ("t3", errorOutputWithSession), ("t4", okOutput)]
      (by decide) (fun x hx => by simp [sampleState] at hx)).1⟩

/-! ## Environment filtering (`buildVolumeMounts` in `container-runner.ts`) -/

/-- Constant `ALLOWED_ENV_VARS` from `container-runner.ts`. -/
def allowedEnvVars : List String :=
  ["CLAUDE_CODE_OAUTH_TOKEN", "ANTHROPIC_API_KEY", "ANTHROPIC_BASE_URL",
    "ANTHROPIC_AUTH_TOKEN", "TZ"]

/-- The per-line predicate of the `.env` filter: drop blank lines and
comment lines, keep a line when its trimmed form starts with an allowed
variable name followed by `=`. -/
def keepEnvLine (line : List Char) : Bool :=
  let trimmed := jsTrim line
  if trimmed.isEmpty then false
  else if ['#'].isPrefixOf trimmed then false
  else allowedEnvVars.any (fun v => (v.data ++ ['=']).isPrefixOf trimmed)

/-- The lines written to the filtered environment file: the host `.env`
content split on newlines, filtered by `keepEnvLine`.  The original
(untrimmed) lines are what gets written. -/
def filteredEnvLines (content : List Char) : List (List Char) :=
  (content.splitOn '\n').filter keepEnvLine

/-- Whether the environment directory is mounted into the container:
only when at least one line survived the filter. -/
def envDirMounted (content : List Char) : Bool :=
  !(filteredEnvLines content).isEmpty

/-- C5 (amended) — every line of the filtered environment file, after
trimming surrounding whitespace, begins with one of the allowed variable
names followed by `=` (so no other variable is ever propagated), and when
no line survives the filter the environment directory is not mounted at
all. -/
theorem env_filter_allowlist_amended (content : List Char) :
    (∀ line ∈ filteredEnvLines content,
      ∃ v ∈ allowedEnvVars, (v.data ++ ['=']).isPrefixOf (jsTrim line)) ∧
    (filteredEnvLines content = [] → envDirMounted content = false) := by
  constructor
  · intro line hline
    have hkeep : keepEnvLine line = true := (List.mem_filter.mp hline).2
    unfold keepEnvLine at hkeep
    dsimp only [] at hkeep
    split_ifs at hkeep with h1 h2
    rcases List.any_eq_true.mp hkeep with ⟨v, hv, hp⟩
    exact ⟨v, hv, hp⟩
  · intro h
    unfold envDirMounted
    rw [h]
    rfl

/-- C5 witness — filtering a two-line `.env` keeps the `TZ` line and
drops the secret; the kept line's trimmed form starts with `TZ=`. -/
theorem env_filter_allowlist_amended_witness :
    "TZ=UTC".data ∈ filteredEnvLines "TZ=UTC\nSECRET_KEY=x".data ∧
    ∃ v ∈ allowedEnvVars, (v.data ++ ['=']).isPrefixOf (jsTrim "TZ=UTC".data) :=
  ⟨by decide,
    (env_filter_allowlist_amended "TZ=UTC\nSECRET_KEY=x".data).1
      "TZ=UTC".data (by decide)⟩

/-- C5 counterexample — a line with leading whitespace passes the filter
(its trimmed form starts with `TZ=`) and is written verbatim, so the
written line itself does not begin with any allowed variable name
followed by `=`. -/
theorem env_filter_counterexample :
    filteredEnvLines " TZ=UTC".data = [" TZ=UTC".data] ∧
    ¬ ∃ v ∈ allowedEnvVars, (v.data ++ ['=']).isPrefixOf " TZ=UTC".data := by
  constructor
  · decide
  · decide

end Gigaclaw
